import Mathlib

/-!
Shallow embedding of the `modal_functions` package (sentiment scorer,
Van Westendorp price-sensitivity engine, persona execution and the
aggregation phase), together with proofs of the specification claims.

Python machine reals are modelled by exact rationals (`ℚ`); Python's
`round(x, n)` (round-half-to-even on the value) is modelled by
`pyRound`.  Strings are modelled over ASCII: `Char.toLower`,
`Char.isAlpha`, `Char.isDigit` agree with Python's `str.lower`, `\w`,
`\d`, `\s` on ASCII text, which is the domain the regular expressions
in the source are written for.

The four rational operations are restored to their definitional
reducibility so that concrete runs of the embedded program can be
checked by `decide` (the kernel ignores reducibility annotations; this
only lets elaboration see through them).
-/

set_option allowUnsafeReducibility true

attribute [local semireducible] Rat.mul Rat.add Rat.sub Rat.div Rat.inv

/-- Python's `\s` character class, restricted to ASCII:
space, tab, newline, carriage return, vertical tab, form feed. -/
def isPySpace (c : Char) : Bool :=
  c == ' ' || c == '\t' || c == '\n' || c == '\r' || c == '\x0b' || c == '\x0c'

/-- Python's `\w` character class (regex word character), restricted to
ASCII: letters, digits and underscore. -/
def isWordChar (c : Char) : Bool :=
  c.isAlpha || c.isDigit || c == '_'

/-- `runsByAux p acc l` accumulates the current run (reversed) in `acc`
while splitting `l` into the maximal runs of characters satisfying `p`. -/
def runsByAux (p : Char → Bool) : List Char → List Char → List (List Char)
  | acc, [] => if acc.isEmpty then [] else [acc.reverse]
  | acc, c :: cs =>
    if p c then runsByAux p (c :: acc) cs
    else if acc.isEmpty then runsByAux p [] cs
    else acc.reverse :: runsByAux p [] cs

/-- The maximal non-empty runs of characters satisfying `p`. -/
def runsBy (p : Char → Bool) (l : List Char) : List (List Char) :=
  runsByAux p [] l

/-- Model of `re.findall(r"\b[a-z]+\b", s)` on a lowercased string:
a match of `[a-z]+` flanked by word boundaries is exactly a maximal run
of word characters (`\w`) that consists entirely of letters `a`-`z`;
runs containing a digit or an underscore produce no match. -/
def pyFindallWords (l : List Char) : List (List Char) :=
  (runsBy isWordChar l).filter (fun r => r.all (fun c => 'a' ≤ c && c ≤ 'z'))

/-- Tokens the sentiment scorer sees for a given text: the text is
lowercased (`text.lower()`) and word runs are extracted. -/
def tokensOf (text : String) : List (List Char) :=
  pyFindallWords (text.data.map Char.toLower)

/-- `_POSITIVE_SIGNALS` table from `sentiment.py`. -/
def _POSITIVE_SIGNALS : List (String × ℕ) :=
  [("invest", 2), ("excited", 2), ("compelling", 2), ("strong", 2),
   ("excellent", 2), ("impressive", 2), ("outstanding", 2), ("love", 2),
   ("definitely", 2), ("absolutely", 2), ("confident", 2),
   ("interested", 1), ("good", 1), ("promising", 1), ("potential", 1),
   ("like", 1), ("positive", 1), ("solid", 1), ("great", 1),
   ("prefer", 1), ("agree", 1), ("recommend", 1), ("support", 1),
   ("valuable", 1), ("useful", 1), ("important", 1), ("beneficial", 1),
   ("opportunity", 1), ("innovative", 1), ("growth", 1), ("traction", 1),
   ("appealing", 1), ("reasonable", 1), ("fair", 1), ("willing", 1),
   ("upgrade", 1), ("subscribe", 1), ("adopt", 1)]

/-- `_NEGATIVE_SIGNALS` table from `sentiment.py`. -/
def _NEGATIVE_SIGNALS : List (String × ℕ) :=
  [("pass", 2), ("reject", 2), ("terrible", 2), ("awful", 2),
   ("never", 2), ("unacceptable", 2), ("dealbreaker", 2), ("overpriced", 2),
   ("churn", 2), ("cancel", 2), ("leave", 2),
   ("concern", 1), ("risk", 1), ("worry", 1), ("doubt", 1),
   ("expensive", 1), ("unclear", 1), ("weak", 1), ("problem", 1),
   ("difficult", 1), ("challenge", 1), ("issue", 1), ("missing", 1),
   ("lack", 1), ("insufficient", 1), ("unlikely", 1), ("hesitant", 1),
   ("skeptical", 1), ("cautious", 1), ("limited", 1), ("concerned", 1),
   ("competitive", 1), ("crowded", 1), ("saturated", 1), ("premature", 1),
   ("confused", 1), ("frustrated", 1), ("disappointed", 1)]

/-- `tbl[word]` when `word in tbl`, else `0` (word contributes nothing). -/
def weightIn (tbl : List (String × ℕ)) (w : String) : ℕ :=
  match tbl.find? (fun kv => kv.1 == w) with
  | some kv => kv.2
  | none => 0

/-- The accumulation loop of `analyze_sentiment` for one signal table:
`for word in words: if word in tbl: score += tbl[word]`. -/
def scoreWith (tbl : List (String × ℕ)) (words : List (List Char)) : ℕ :=
  words.foldl (fun acc w => acc + weightIn tbl (String.mk w)) 0

/-- Python's builtin `min` on two numbers (kernel-reducible). -/
def pyMin (a b : ℚ) : ℚ :=
  if b < a then b else a

/-- Python's builtin `max` on two numbers (kernel-reducible). -/
def pyMax (a b : ℚ) : ℚ :=
  if a < b then b else a

/-- Round-half-to-even to the nearest integer, the tie-breaking rule of
Python's builtin `round`. -/
def roundHalfEven (x : ℚ) : ℤ :=
  if x - (Rat.floor x : ℚ) < 1/2 then Rat.floor x
  else if 1/2 < x - (Rat.floor x : ℚ) then Rat.floor x + 1
  else if Rat.floor x % 2 = 0 then Rat.floor x else Rat.floor x + 1

/-- Python's `round(x, d)` for `d` decimal digits. -/
def pyRound (d : ℕ) (x : ℚ) : ℚ :=
  (roundHalfEven (x * 10 ^ d) : ℚ) / 10 ^ d

/-- Score computation of `analyze_sentiment` given the token list:
positive and negative weights are summed independently; a zero total
yields `0.0`; otherwise `round((pos - neg) / total, 2)` clamped to
`[-1, 1]`. -/
def sentimentOfTokens (words : List (List Char)) : ℚ :=
  let positive_score := scoreWith _POSITIVE_SIGNALS words
  let negative_score := scoreWith _NEGATIVE_SIGNALS words
  let total := positive_score + negative_score
  if total = 0 then 0
  else
    pyMax (-1) (pyMin 1 (pyRound 2 (((positive_score : ℚ) - (negative_score : ℚ)) / (total : ℚ))))

/-- `analyze_sentiment` from `sentiment.py`.  The guard
`if not text or not text.strip(): return 0.0` fires exactly when every
character of the text is whitespace (the empty text included). -/
def analyze_sentiment (text : String) : ℚ :=
  if text.data.all isPySpace then 0
  else sentimentOfTokens (tokensOf text)

/-! ## Van Westendorp price-sensitivity engine (`van_westendorp.py`) -/

/-- A parsed price quadruple, the dict
`{too_expensive, expensive, bargain, too_cheap}` built by
`_parse_price_points` (all values numeric). -/
structure PriceQuad where
  too_expensive : ℚ
  expensive : ℚ
  bargain : ℚ
  too_cheap : ℚ
deriving DecidableEq

/-- Consume the pattern string (a literal, no metacharacters) at the head
of the text case-insensitively (`re.IGNORECASE`), returning the rest. -/
def matchCI : List Char → List Char → Option (List Char)
  | [], rest => some rest
  | _ :: _, [] => none
  | c :: cs, d :: ds => if d.toLower == c.toLower then matchCI cs ds else none

/-- Consume one `[_\s]` separator character. -/
def matchSep : List Char → Option (List Char)
  | c :: rest => if c == '_' || isPySpace c then some rest else none
  | [] => none

/-- Consume `\s*:\s*\$?\s*` (spacing, the colon, an optional currency
symbol, spacing), returning the rest of the text. -/
def matchTail (l : List Char) : Option (List Char) :=
  match l.dropWhile isPySpace with
  | ':' :: l2 =>
    let l3 := l2.dropWhile isPySpace
    let l4 := match l3 with
      | '$' :: r => r
      | _ => l3
    some (l4.dropWhile isPySpace)
  | _ => none

/-- Consume the capture group `([\d,]+(?:\.\d{1,2})?)`: a non-empty
greedy run of digits and commas, then optionally a dot followed by one
or two digits (greedy).  Returns the captured characters. -/
def matchNumber (l : List Char) : Option (List Char) :=
  let digits := l.takeWhile (fun c => c.isDigit || c == ',')
  if digits.isEmpty then none
  else
    match l.drop digits.length with
    | '.' :: d1 :: d2 :: _ =>
      if d1.isDigit && d2.isDigit then some (digits ++ [ '.', d1, d2])
      else if d1.isDigit then some (digits ++ [ '.', d1])
      else some digits
    | '.' :: d1 :: [] =>
      if d1.isDigit then some (digits ++ [ '.', d1]) else some digits
    | _ => some digits

/-- The fixed-width negative lookbehind `(?<!TOO[_\s])` of the
`expensive` pattern: `pre` is the reversed prefix of the text before the
current position; the lookbehind blocks the match when the four
preceding characters are `TOO` plus one separator (case-insensitive). -/
def lookbehindBlocks (pre : List Char) : Bool :=
  match pre with
  | s :: o2 :: o1 :: t :: _ =>
    (s == '_' || isPySpace s) && o2.toLower == 'o' && o1.toLower == 'o' && t.toLower == 't'
  | _ => false

/-- Match `TOO[_\s]EXPENSIVE\s*:\s*\$?\s*([\d,]+(?:\.\d{1,2})?)` at the
current position (the reversed prefix is ignored: no lookbehind). -/
def tooExpensiveMatchAt (_pre l : List Char) : Option (List Char) :=
  (matchCI "TOO".data l).bind fun r1 =>
  (matchSep r1).bind fun r2 =>
  (matchCI "EXPENSIVE".data r2).bind fun r3 =>
  (matchTail r3).bind matchNumber

/-- Match `(?<!TOO[_\s])EXPENSIVE\s*:\s*\$?\s*([\d,]+(?:\.\d{1,2})?)`
at the current position. -/
def expensiveMatchAt (pre l : List Char) : Option (List Char) :=
  if lookbehindBlocks pre then none
  else
    (matchCI "EXPENSIVE".data l).bind fun r =>
    (matchTail r).bind matchNumber

/-- Match `BARGAIN\s*:\s*\$?\s*([\d,]+(?:\.\d{1,2})?)`. -/
def bargainMatchAt (_pre l : List Char) : Option (List Char) :=
  (matchCI "BARGAIN".data l).bind fun r =>
  (matchTail r).bind matchNumber

/-- Match `TOO[_\s]CHEAP\s*:\s*\$?\s*([\d,]+(?:\.\d{1,2})?)`. -/
def tooCheapMatchAt (_pre l : List Char) : Option (List Char) :=
  (matchCI "TOO".data l).bind fun r1 =>
  (matchSep r1).bind fun r2 =>
  (matchCI "CHEAP".data r2).bind fun r3 =>
  (matchTail r3).bind matchNumber

/-- `re.search`: try the matcher at every position left to right; on the
first success return the match's start position and its capture.  `pre`
is the reversed prefix of the text before the current position (so
`pre.length` is the position), available to lookbehinds. -/
def searchFrom (m : List Char → List Char → Option (List Char)) :
    List Char → List Char → Option (ℕ × List Char)
  | pre, [] => (m pre []).map (fun v => (pre.length, v))
  | pre, c :: rest =>
    match m pre (c :: rest) with
    | some v => some (pre.length, v)
    | none => searchFrom m (c :: pre) rest

/-- The captured group of the leftmost match, if any
(`re.search(pattern, text, re.IGNORECASE)` followed by `.group(1)`). -/
def searchPrice (m : List Char → List Char → Option (List Char)) (text : List Char) :
    Option (List Char) :=
  (searchFrom m [] text).map Prod.snd

/-- Digits to a natural number (the captured group holds ASCII digits). -/
def digitsToNat (l : List Char) : ℕ :=
  l.foldl (fun n c => 10 * n + (c.toNat - 48)) 0

/-- Python `float(value_str)` on a captured group with the commas
removed: the remaining string is digits, optionally split by one dot
(`12`, `12.5`, `.5`); the empty string (a group of commas only) raises
`ValueError`, modelled as `none`. -/
def pyFloat (grp : List Char) : Option ℚ :=
  let s := grp.filter (fun c => c != ',')
  if s.isEmpty then none
  else
    let ip := s.takeWhile (fun c => c.isDigit)
    match s.drop ip.length with
    | [] => some (digitsToNat ip)
    | '.' :: fd =>
      if !fd.isEmpty && fd.all (fun c => c.isDigit) then
        some ((digitsToNat ip : ℚ) + (digitsToNat fd : ℚ) / 10 ^ fd.length)
      else none
    | _ => none

/-- `_parse_price_points` from `van_westendorp.py`.  The argument is the
Python value passed in (`str` or `None`); `if not text` rejects `None`
and the empty string.  Each of the four patterns is searched and its
group parsed as a float; a missing match or a `ValueError` returns
`None`.  (The source's final ordering sanity check has an empty body
and is omitted.) -/
def _parse_price_points : Option String → Option PriceQuad
  | none => none
  | some t =>
    if t.data.isEmpty then none
    else
      match (searchPrice tooExpensiveMatchAt t.data).bind pyFloat with
      | none => none
      | some te =>
        match (searchPrice expensiveMatchAt t.data).bind pyFloat with
        | none => none
        | some ex =>
          match (searchPrice bargainMatchAt t.data).bind pyFloat with
          | none => none
          | some ba =>
            match (searchPrice tooCheapMatchAt t.data).bind pyFloat with
            | none => none
            | some tc =>
              some { too_expensive := te, expensive := ex, bargain := ba, too_cheap := tc }

/-- One row of the cumulative table: the price and the four cumulative
fractions. -/
structure CumPoint where
  price : ℚ
  too_cheap : ℚ
  bargain : ℚ
  expensive : ℚ
  too_expensive : ℚ
deriving DecidableEq

/-- `p.values()` for every quadruple: the flat list of all price values
(the Python code collects them into a `set`; duplicates are removed by
`pricePoints`). -/
def allValues (data : List PriceQuad) : List ℚ :=
  data.foldr (fun p acc => p.too_expensive :: p.expensive :: p.bargain :: p.too_cheap :: acc) []

/-- `sorted(all_values)` over the set of values: the distinct prices in
ascending order (the x-axis of the cumulative table). -/
def pricePoints (data : List PriceQuad) : List ℚ :=
  (allValues data).dedup.insertionSort (· ≤ ·)

/-- One unrounded row of the cumulative table at price `price`: the
fraction of respondents with `too_cheap >= price`, `bargain >= price`,
`expensive <= price`, `too_expensive <= price`.  The division by
`n = len(price_data)` only executes for a price drawn from the data, so
`n ≥ 1` there. -/
def mkCumRaw (data : List PriceQuad) (price : ℚ) : CumPoint :=
  let n : ℚ := (data.length : ℚ)
  { price := price
    too_cheap := (data.countP (fun p => price ≤ p.too_cheap) : ℚ) / n
    bargain := (data.countP (fun p => price ≤ p.bargain) : ℚ) / n
    expensive := (data.countP (fun p => p.expensive ≤ price) : ℚ) / n
    too_expensive := (data.countP (fun p => p.too_expensive ≤ price) : ℚ) / n }

/-- `round(…, 4)` applied to the four fractions of a row (the `price`
field is stored unrounded). -/
def roundCum (c : CumPoint) : CumPoint :=
  { price := c.price
    too_cheap := pyRound 4 c.too_cheap
    bargain := pyRound 4 c.bargain
    expensive := pyRound 4 c.expensive
    too_expensive := pyRound 4 c.too_expensive }

/-- The unrounded cumulative table over the ascending price axis. -/
def cumulativeRaw (data : List PriceQuad) : List CumPoint :=
  (pricePoints data).map (mkCumRaw data)

/-- The cumulative table as `_calculate_intersections` builds it: each
fraction rounded to 4 decimals. -/
def cumulativeOf (data : List PriceQuad) : List CumPoint :=
  (cumulativeRaw data).map roundCum

/-- `_find_intersection` from `van_westendorp.py` for the curves
selected by the projections `a` and `b`: scan adjacent rows for a sign
change of `a - b` (then linearly interpolate, or take the midpoint when
the segment denominator is below `1e-10`), or an exact zero at a row
(checked at the last row separately, after the loop). -/
def _find_intersection (a b : CumPoint → ℚ) : List CumPoint → Option ℚ
  | [] => none
  | [c] => if |a c - b c| < 1 / 10 ^ 10 then some (pyRound 2 c.price) else none
  | c1 :: c2 :: rest =>
    let diff1 := a c1 - b c1
    let diff2 := a c2 - b c2
    if diff1 * diff2 < 0 then
      let p1 := c1.price
      let p2 := c2.price
      let denom := (a c2 - a c1) - (b c2 - b c1)
      if |denom| < 1 / 10 ^ 10 then some (pyRound 2 ((p1 + p2) / 2))
      else some (pyRound 2 (p1 + (b c1 - a c1) / denom * (p2 - p1)))
    else if |diff1| < 1 / 10 ^ 10 then some (pyRound 2 c1.price)
    else _find_intersection a b (c2 :: rest)

/-- The result dict of `_calculate_intersections` (without the
`by_archetype` key that `calculate_van_westendorp` adds on top). -/
structure VWCore where
  optimal_price_point : Option ℚ
  indifference_price_point : Option ℚ
  point_of_marginal_cheapness : Option ℚ
  point_of_marginal_expensiveness : Option ℚ
  range_low : Option ℚ
  range_high : Option ℚ
  cumulative_data : List CumPoint
deriving DecidableEq

/-- `_calculate_intersections` from `van_westendorp.py`.  The only
reachable runtime error is the `IndexError` of `price_points[0]` /
`price_points[-1]` when the axis is empty (which needs empty input:
any quadruple contributes four axis values), modelled with `Except`. -/
def _calculate_intersections (price_data : List PriceQuad) : Except String VWCore :=
  let price_points := pricePoints price_data
  let cumulative := cumulativeOf price_data
  let opp := _find_intersection CumPoint.too_expensive CumPoint.too_cheap cumulative
  let ipp := _find_intersection CumPoint.expensive CumPoint.bargain cumulative
  let pmc := _find_intersection CumPoint.too_cheap CumPoint.expensive cumulative
  let pme := _find_intersection CumPoint.too_expensive CumPoint.bargain cumulative
  match (match pmc with | some v => some v | none => price_points.head?),
        (match pme with | some v => some v | none => price_points.getLast?) with
  | some low, some high =>
    Except.ok
      { optimal_price_point := opp
        indifference_price_point := ipp
        point_of_marginal_cheapness := pmc
        point_of_marginal_expensiveness := pme
        range_low := some (pyRound 2 low)
        range_high := some (pyRound 2 high)
        cumulative_data := cumulative }
  | _, _ => Except.error "IndexError: list index out of range"

/-- One result dict as `calculate_van_westendorp` receives it.  A key
may be absent (`none`) and, for `response`, present but `null`
(`some none`): `r.get("error")` conflates absence and `null` into
`None`, so `error` and `archetype_name` are a single `Option`. -/
structure ResultEntry where
  error : Option String := none
  response : Option (Option String) := none
  archetype_name : Option String := none
deriving DecidableEq

/-- `r.get("response", "")`: the default `""` only applies when the key
is missing; a present `null` stays `None`. -/
def responseTextOf (r : ResultEntry) : Option String :=
  match r.response with
  | none => some ""
  | some v => v

/-- The body of the collection loop of `calculate_van_westendorp` for
one result dict: skip entries whose `error` is set, parse the response
text, skip on parse failure. -/
def parsedOf (r : ResultEntry) : Option PriceQuad :=
  if r.error.isSome then none
  else _parse_price_points (responseTextOf r)

/-- `all_prices`: the valid parsed quadruples, in result order. -/
def validPrices (results : List ResultEntry) : List PriceQuad :=
  results.filterMap parsedOf

/-- Append `x` to the list bound to key `a` of the insertion-ordered
association list `gs` (a Python dict of lists). -/
def addToGroup {α : Type} (gs : List (String × List α)) (a : String) (x : α) :
    List (String × List α) :=
  match gs with
  | [] => [(a, [x])]
  | (b, xs) :: rest =>
    if b = a then (b, xs ++ [x]) :: rest else (b, xs) :: addToGroup rest a x

/-- `by_archetype`: the valid parsed quadruples grouped by
`r.get("archetype_name", "unknown")`, in insertion order. -/
def groupByArch (results : List ResultEntry) : List (String × List PriceQuad) :=
  results.foldl
    (fun gs r =>
      match parsedOf r with
      | none => gs
      | some q => addToGroup gs (r.archetype_name.getD "unknown") q)
    []

/-- The per-archetype projection `{opp, ipp, pmc, pme}` of an
intersection result. -/
structure ArchPoints where
  opp : Option ℚ
  ipp : Option ℚ
  pmc : Option ℚ
  pme : Option ℚ
deriving DecidableEq

/-- The full result dict of `calculate_van_westendorp`. -/
structure VWResult where
  optimal_price_point : Option ℚ
  indifference_price_point : Option ℚ
  point_of_marginal_cheapness : Option ℚ
  point_of_marginal_expensiveness : Option ℚ
  range_low : Option ℚ
  range_high : Option ℚ
  cumulative_data : List CumPoint
  by_archetype : List (String × ArchPoints)
deriving DecidableEq

/-- `_empty_result` from `van_westendorp.py`: the None-filled shape
returned when fewer than 2 valid data points exist. -/
def _empty_result : VWResult :=
  { optimal_price_point := none
    indifference_price_point := none
    point_of_marginal_cheapness := none
    point_of_marginal_expensiveness := none
    range_low := none
    range_high := none
    cumulative_data := []
    by_archetype := [] }

/-- The per-archetype loop of `calculate_van_westendorp`: archetypes
with at least 2 quadruples get their own intersection run, in dict
(insertion) order; smaller groups are omitted. -/
def archResults : List (String × List PriceQuad) → Except String (List (String × ArchPoints))
  | [] => Except.ok []
  | (a, ps) :: rest =>
    if 2 ≤ ps.length then
      match _calculate_intersections ps with
      | Except.error e => Except.error e
      | Except.ok inter =>
        match archResults rest with
        | Except.error e => Except.error e
        | Except.ok tail =>
          Except.ok ((a,
            { opp := inter.optimal_price_point
              ipp := inter.indifference_price_point
              pmc := inter.point_of_marginal_cheapness
              pme := inter.point_of_marginal_expensiveness }) :: tail)
    else archResults rest

/-- `calculate_van_westendorp` from `van_westendorp.py`: collect valid
quadruples (and their archetype groups), return the empty shape below 2
valid data points, otherwise run the overall and per-archetype
intersection analyses. -/
def calculate_van_westendorp (results : List ResultEntry) : Except String VWResult :=
  let all_prices := validPrices results
  if all_prices.length < 2 then Except.ok _empty_result
  else
    match _calculate_intersections all_prices with
    | Except.error e => Except.error e
    | Except.ok overall =>
      match archResults (groupByArch results) with
      | Except.error e => Except.error e
      | Except.ok ars =>
        Except.ok
          { optimal_price_point := overall.optimal_price_point
            indifference_price_point := overall.indifference_price_point
            point_of_marginal_cheapness := overall.point_of_marginal_cheapness
            point_of_marginal_expensiveness := overall.point_of_marginal_expensiveness
            range_low := overall.range_low
            range_high := overall.range_high
            cumulative_data := overall.cumulative_data
            by_archetype := ars }

/-! ## Persona execution (`experiment_runner.py`) -/

/-- A persona dict.  `id`, `name` and `role` are accessed with `[]`
(always present in generated personas); the rest with `.get`. -/
structure Persona where
  id : String
  name : String
  role : String
  archetype_id : Option String := none
  archetype_name : Option String := none
  company : Option String := none
  background : Option String := none
  beliefs : Option (String ⊕ List String) := none
  decision_style : Option String := none

/-- Token usage reported by the generation backend. -/
structure ApiUsage where
  input_tokens : ℕ
  output_tokens : ℕ

/-- One content block of a backend response. -/
structure ApiContent where
  text : String

/-- A successful backend response: content blocks and usage. -/
structure ApiResponse where
  content : List ApiContent
  usage : ApiUsage

/-- A raised Python exception, as caught by `except Exception as e`:
its type name and its message. -/
structure PyExn where
  name : String
  msg : String

/-- `build_persona_system_prompt` from `experiment_runner.py` (list
beliefs are bulleted and joined; missing fields default as in the
source). -/
def build_persona_system_prompt (p : Persona) : String :=
  let beliefs_text :=
    match p.beliefs.getD (Sum.inl "") with
    | Sum.inl s => s
    | Sum.inr l => String.intercalate "\n" (l.map (fun b => "- " ++ b))
  "You are " ++ p.name ++ ", a " ++ p.role ++ ".\n\nCompany: " ++
    p.company.getD "N/A" ++ "\n\nBackground:\n" ++ p.background.getD "" ++
    "\n\nYour beliefs and values:\n" ++ beliefs_text ++
    "\n\nDecision-making style: " ++ p.decision_style.getD "" ++
    "\n\nRespond to the following scenario fully in character. Be specific and authentic\n" ++
    "to your persona's perspective, experience level, and decision-making style.\n" ++
    "Do not break character or acknowledge that you are an AI."

/-- The result dict built by `execute_persona`. -/
structure ExecResult where
  persona_id : String
  persona_name : String
  archetype_id : String
  archetype_name : String
  response : Option String
  sentiment : ℚ
  tokens_input : ℕ
  tokens_output : ℕ
  model : String
  elapsed_seconds : ℚ
  error : Option String
deriving DecidableEq

/-- `execute_persona` from `experiment_runner.py`.  The external call is
an oracle argument `call` (a response, or the exception the `try` block
catches); `elapsed` is the oracle wall-clock duration.  Inside the
`try`, `response.content[0]` on an empty content list raises an
`IndexError`, which the same `except` turns into an error result. -/
def execute_persona (persona : Persona) (call : Except PyExn ApiResponse)
    (model : String) (elapsed : ℚ) : ExecResult :=
  let failure := fun (e : PyExn) =>
    { persona_id := persona.id
      persona_name := persona.name
      archetype_id := persona.archetype_id.getD ""
      archetype_name := persona.archetype_name.getD ""
      response := none
      sentiment := 0
      tokens_input := 0
      tokens_output := 0
      model := model
      elapsed_seconds := pyRound 2 elapsed
      error := some (e.name ++ ": " ++ e.msg) : ExecResult }
  match call with
  | Except.error e => failure e
  | Except.ok resp =>
    match resp.content.head? with
    | none => failure { name := "IndexError", msg := "list index out of range" }
    | some c =>
      { persona_id := persona.id
        persona_name := persona.name
        archetype_id := persona.archetype_id.getD ""
        archetype_name := persona.archetype_name.getD ""
        response := some c.text
        sentiment := analyze_sentiment c.text
        tokens_input := resp.usage.input_tokens
        tokens_output := resp.usage.output_tokens
        model := model
        elapsed_seconds := pyRound 2 elapsed
        error := none }

/-! ## Aggregation phase (`app.py`, `stream_results` phase 3) -/

/-- The `metrics` object of the `experiment_complete` event. -/
structure Metrics where
  total_personas : ℕ
  successful_responses : ℕ
  failed_responses : ℕ
  avg_sentiment : ℚ
  archetype_sentiments : List (String × ℚ)
  total_tokens_input : ℕ
  total_tokens_output : ℕ
  elapsed_seconds : ℚ
deriving DecidableEq

/-- Phase 3 of `stream_results` in `app.py`: partition results by
`error`, average sentiments (0.0 on empty), group sentiments by
archetype and average per group, total the token counts (accumulated
from the results during streaming), and record the rounded wall-clock
`elapsed`.  `personas_len` is `len(personas)`; `elapsed` is
`time.time() - start_time`. -/
def aggregateMetrics (personas_len : ℕ) (results : List ExecResult) (elapsed : ℚ) : Metrics :=
  let successful := results.filter (fun r => r.error.isNone)
  let failed := results.filter (fun r => r.error.isSome)
  let sentiments := successful.map (fun r => r.sentiment)
  let avg_sentiment :=
    if sentiments.isEmpty then 0
    else pyRound 3 (sentiments.sum / (sentiments.length : ℚ))
  let by_archetype :=
    successful.foldl (fun gs r => addToGroup gs r.archetype_name r.sentiment) []
  let archetype_sentiments :=
    by_archetype.map (fun g => (g.1, pyRound 3 (g.2.sum / (g.2.length : ℚ))))
  { total_personas := personas_len
    successful_responses := successful.length
    failed_responses := failed.length
    avg_sentiment := avg_sentiment
    archetype_sentiments := archetype_sentiments
    total_tokens_input := (results.map (fun r => r.tokens_input)).sum
    total_tokens_output := (results.map (fun r => r.tokens_output)).sum
    elapsed_seconds := pyRound 2 elapsed }

/-! ## Claim-level predicates and spec-side models -/

deriving instance DecidableEq for Except

/-- Modelled from the spec's words for the refinement claim on
tokenization: "maximal alphabetic runs with any non-letter character
acting as a separator" (to be compared with `pyFindallWords`, the
tokenizer of the source). -/
def specAlphaRuns (l : List Char) : List (List Char) :=
  runsBy (fun c => 'a' ≤ c && c ≤ 'z') l

/-- Position `i` of `text` is the tail of a "too expensive" label in
the broad sense of the claim: `TOO` (case-insensitive), then one or
more separator characters (`_` or whitespace, covering "unusual
whitespace"), ending right before `i`. -/
def isTooExpTail (text : List Char) (i : ℕ) : Prop :=
  ∃ k, k < i ∧ k + 3 < i ∧
    (∃ c, text.get? k = some c ∧ c.toLower = 't') ∧
    (∃ c, text.get? (k + 1) = some c ∧ c.toLower = 'o') ∧
    (∃ c, text.get? (k + 2) = some c ∧ c.toLower = 'o') ∧
    (∀ m, k + 3 ≤ m → m < i → ∃ c, text.get? m = some c ∧ (c == '_' || isPySpace c) = true)

instance (text : List Char) (i : ℕ) : Decidable (isTooExpTail text i) := by
  unfold isTooExpTail
  infer_instance

/-- Position `i` of `text` is immediately preceded by the exact
single-separator form `TOO[_\s]` (case-insensitive) that the negative
lookbehind of the `expensive` pattern blocks. -/
def singleSepTooExpAt (text : List Char) (i : ℕ) : Prop :=
  4 ≤ i ∧
    (∃ c, text.get? (i - 4) = some c ∧ c.toLower = 't') ∧
    (∃ c, text.get? (i - 3) = some c ∧ c.toLower = 'o') ∧
    (∃ c, text.get? (i - 2) = some c ∧ c.toLower = 'o') ∧
    (∃ c, text.get? (i - 1) = some c ∧ (c == '_' || isPySpace c) = true)

instance (text : List Char) (i : ℕ) : Decidable (singleSepTooExpAt text i) := by
  unfold singleSepTooExpAt
  infer_instance

/-- The monotonicity relation the cumulative table satisfies between a
row `c` and a later row `d` (higher price): the `too_cheap` and
`bargain` fractions do not increase, the `expensive` and
`too_expensive` fractions do not decrease. -/
def cumMonoPair (c d : CumPoint) : Prop :=
  d.too_cheap ≤ c.too_cheap ∧ d.bargain ≤ c.bargain ∧
    c.expensive ≤ d.expensive ∧ c.too_expensive ≤ d.too_expensive

instance (c d : CumPoint) : Decidable (cumMonoPair c d) := by
  unfold cumMonoPair
  infer_instance

/-- All four fractions of a cumulative row lie in `[0, 1]`. -/
def cumInUnit (c : CumPoint) : Prop :=
  (0 ≤ c.too_cheap ∧ c.too_cheap ≤ 1) ∧ (0 ≤ c.bargain ∧ c.bargain ≤ 1) ∧
    (0 ≤ c.expensive ∧ c.expensive ≤ 1) ∧ (0 ≤ c.too_expensive ∧ c.too_expensive ≤ 1)

instance (c : CumPoint) : Decidable (cumInUnit c) := by
  unfold cumInUnit
  infer_instance

/-- A metrics object with its wall-clock field cleared, to compare the
result-determined fields of two aggregation runs. -/
def stripElapsed (m : Metrics) : Metrics :=
  { m with elapsed_seconds := 0 }

/-! ## Lemmas about Python rounding -/

/-- `Rat.floor` agrees with the floor of the `FloorRing` instance. -/
theorem ratFloor_eq_floor (q : ℚ) : Rat.floor q = ⌊q⌋ :=
  (Rat.floor_def' q).trans Rat.floor_def.symm

theorem le_roundHalfEven (x : ℚ) : ⌊x⌋ ≤ roundHalfEven x := by
  unfold roundHalfEven
  rw [ratFloor_eq_floor]
  split
  · exact le_refl _
  · split
    · omega
    · split <;> omega

theorem roundHalfEven_le_floor_add_one (x : ℚ) : roundHalfEven x ≤ ⌊x⌋ + 1 := by
  unfold roundHalfEven
  rw [ratFloor_eq_floor]
  split
  · omega
  · split
    · omega
    · split <;> omega

theorem roundHalfEven_mono {x y : ℚ} (h : x ≤ y) : roundHalfEven x ≤ roundHalfEven y := by
  have hf : ⌊x⌋ ≤ ⌊y⌋ := Int.floor_mono h
  rcases eq_or_lt_of_le hf with heq | hlt
  · unfold roundHalfEven
    rw [ratFloor_eq_floor, ratFloor_eq_floor, ← heq]
    have hr : x - (⌊x⌋ : ℚ) ≤ y - (⌊x⌋ : ℚ) := by linarith
    split_ifs <;> first | omega | linarith
  · calc roundHalfEven x ≤ ⌊x⌋ + 1 := roundHalfEven_le_floor_add_one x
      _ ≤ ⌊y⌋ := by omega
      _ ≤ roundHalfEven y := le_roundHalfEven y

theorem pyRound_mono (d : ℕ) {x y : ℚ} (h : x ≤ y) : pyRound d x ≤ pyRound d y := by
  unfold pyRound
  have h10 : (0 : ℚ) < 10 ^ d := by positivity
  have hm : x * 10 ^ d ≤ y * 10 ^ d := by nlinarith
  have hr := roundHalfEven_mono hm
  exact (div_le_div_iff_of_pos_right h10).mpr (by exact_mod_cast hr)

theorem roundHalfEven_intCast (z : ℤ) : roundHalfEven (z : ℚ) = z := by
  unfold roundHalfEven
  rw [ratFloor_eq_floor, Int.floor_intCast]
  norm_num

theorem pyRound_zero (d : ℕ) : pyRound d 0 = 0 := by
  unfold pyRound
  rw [zero_mul]
  have : roundHalfEven ((0 : ℤ) : ℚ) = 0 := roundHalfEven_intCast 0
  rw [show ((0 : ℤ) : ℚ) = 0 from rfl] at this
  rw [this]
  simp

theorem pyRound_one (d : ℕ) : pyRound d 1 = 1 := by
  unfold pyRound
  rw [one_mul]
  have h1 : ((10 : ℚ) ^ d) = (((10 : ℤ) ^ d : ℤ) : ℚ) := by push_cast; ring
  rw [h1, roundHalfEven_intCast]
  rw [← h1]
  exact div_self (by positivity)

theorem pyRound_nonneg (d : ℕ) {x : ℚ} (h : 0 ≤ x) : 0 ≤ pyRound d x := by
  have := pyRound_mono d h
  rwa [pyRound_zero] at this

theorem pyRound_le_one (d : ℕ) {x : ℚ} (h : x ≤ 1) : pyRound d x ≤ 1 := by
  have := pyRound_mono d h
  rwa [pyRound_one] at this

/-! ## Lemmas about the sentiment scorer -/

theorem neg_one_le_clamp (z : ℚ) : -1 ≤ pyMax (-1) z := by
  unfold pyMax
  split
  · linarith [lt_of_lt_of_le (show (-1 : ℚ) < z by assumption) (le_refl z)]
  · exact le_refl _

theorem clamp_le_one (z : ℚ) : pyMax (-1) (pyMin 1 z) ≤ 1 := by
  unfold pyMax pyMin
  split_ifs <;> linarith

theorem runsByAux_nil {p : Char → Bool} {l : List Char}
    (h : ∀ c ∈ l, p c = false) : runsByAux p [] l = [] := by
  induction l with
  | nil => rfl
  | cons c cs ih =>
    unfold runsByAux
    rw [h c (List.mem_cons_self c cs)]
    simp only [List.isEmpty_nil, if_true]
    exact ih fun d hd => h d (List.mem_cons_of_mem c hd)

theorem tokensOf_eq_nil_of_space {text : String}
    (h : text.data.all isPySpace = true) : tokensOf text = [] := by
  unfold tokensOf pyFindallWords runsBy
  rw [runsByAux_nil, List.filter_nil]
  intro c hc
  rw [List.mem_map] at hc
  obtain ⟨d, hd, rfl⟩ := hc
  have hds : isPySpace d = true := by
    rw [List.all_eq_true] at h
    exact h d hd
  simp only [isPySpace, Bool.or_eq_true, beq_iff_eq] at hds
  rcases hds with ((((h1 | h1) | h1) | h1) | h1) | h1 <;> subst h1 <;> decide

/-- `analyze_sentiment` always equals the token-level score: the
early-return branch coincides with the zero-token case. -/
theorem analyze_sentiment_eq (text : String) :
    analyze_sentiment text = sentimentOfTokens (tokensOf text) := by
  unfold analyze_sentiment
  split
  · rw [tokensOf_eq_nil_of_space (by assumption)]
    rfl
  · rfl

theorem foldl_add_weight (tbl : List (String × ℕ)) (l : List (List Char)) (a : ℕ) :
    l.foldl (fun acc w => acc + weightIn tbl (String.mk w)) a
      = a + (l.map (fun w => weightIn tbl (String.mk w))).sum := by
  induction l generalizing a with
  | nil => simp
  | cons w ws ih =>
    simp only [List.foldl_cons, List.map_cons, List.sum_cons]
    rw [ih]
    omega

theorem scoreWith_perm (tbl : List (String × ℕ)) {l1 l2 : List (List Char)}
    (h : List.Perm l1 l2) : scoreWith tbl l1 = scoreWith tbl l2 := by
  unfold scoreWith
  rw [foldl_add_weight, foldl_add_weight]
  exact congrArg _ ((h.map _).sum_eq)

theorem sentimentOfTokens_perm {l1 l2 : List (List Char)}
    (h : List.Perm l1 l2) : sentimentOfTokens l1 = sentimentOfTokens l2 := by
  unfold sentimentOfTokens
  rw [scoreWith_perm _POSITIVE_SIGNALS h, scoreWith_perm _NEGATIVE_SIGNALS h]

/-! ## Claims about the sentiment scorer (C2, C3) -/

/-- Claim C2: for every text, if the sum `pos + neg` of matched positive
and negative signal weights is zero then `analyze_sentiment` returns
exactly `0.0`; otherwise it returns `round((pos - neg)/(pos + neg), 2)`
clamped to `[-1, 1]`; consequently the result always lies in
`[-1, 1]`. -/
theorem sentiment_formula (text : String) :
    (scoreWith _POSITIVE_SIGNALS (tokensOf text) + scoreWith _NEGATIVE_SIGNALS (tokensOf text) = 0 →
      analyze_sentiment text = 0) ∧
    (scoreWith _POSITIVE_SIGNALS (tokensOf text) + scoreWith _NEGATIVE_SIGNALS (tokensOf text) ≠ 0 →
      analyze_sentiment text =
        pyMax (-1) (pyMin 1 (pyRound 2
          (((scoreWith _POSITIVE_SIGNALS (tokensOf text) : ℚ) -
              (scoreWith _NEGATIVE_SIGNALS (tokensOf text) : ℚ)) /
            ((scoreWith _POSITIVE_SIGNALS (tokensOf text)
                + scoreWith _NEGATIVE_SIGNALS (tokensOf text) : ℕ) : ℚ))))) ∧
    -1 ≤ analyze_sentiment text ∧ analyze_sentiment text ≤ 1 := by
  rw [analyze_sentiment_eq]
  simp only [sentimentOfTokens]
  split
  · refine ⟨fun _ => rfl, fun hne => absurd (by assumption) hne, by norm_num, by norm_num⟩
  · refine ⟨fun h0 => absurd h0 (by assumption), fun _ => rfl, neg_one_le_clamp _, clamp_le_one _⟩

/-- Witness for C2: both branches at concrete texts ("xy" has no signal
words, total 0; "great" has total 1). -/
theorem sentiment_formula_witness :
    analyze_sentiment "xy" = 0 ∧
      analyze_sentiment "great" =
        pyMax (-1) (pyMin 1 (pyRound 2
          (((scoreWith _POSITIVE_SIGNALS (tokensOf "great") : ℚ) -
              (scoreWith _NEGATIVE_SIGNALS (tokensOf "great") : ℚ)) /
            ((scoreWith _POSITIVE_SIGNALS (tokensOf "great")
                + scoreWith _NEGATIVE_SIGNALS (tokensOf "great") : ℕ) : ℚ)))) :=
  ⟨(sentiment_formula "xy").1 (by decide), (sentiment_formula "great").2.1 (by decide)⟩

/-- Counterexample to C3 as stated: `"great1"` and `"great"` have the
same maximal alphabetic runs after lowercasing (a digit would be a
separator under the claim's tokenization), yet the scores differ: the
source regex `\b[a-z]+\b` puts a word boundary only at non-word
characters, so `great1` yields no token. -/
theorem sentiment_alpha_runs_cex :
    specAlphaRuns ("great1".data.map Char.toLower)
        = specAlphaRuns ("great".data.map Char.toLower) ∧
      analyze_sentiment "great1" ≠ analyze_sentiment "great" := by
  constructor
  · decide
  · decide

/-- Claim C3, amended: `analyze_sentiment` lowercases the text and
tokenizes it into the maximal word-character runs (`\w`, i.e. letters,
digits, underscore) that consist entirely of letters — a run touching a
digit or underscore yields no token; the score depends only on the
multiset of these tokens, so it is case-insensitive and insensitive to
punctuation (non-word) separators, e.g.
`analyze_sentiment "GREAT!" = analyze_sentiment "great"`. -/
theorem sentiment_token_invariance :
    (∀ s t : String, List.Perm (tokensOf s) (tokensOf t) →
      analyze_sentiment s = analyze_sentiment t) ∧
      analyze_sentiment "GREAT!" = analyze_sentiment "great" := by
  have key : ∀ s t : String, List.Perm (tokensOf s) (tokensOf t) →
      analyze_sentiment s = analyze_sentiment t := by
    intro s t h
    rw [analyze_sentiment_eq, analyze_sentiment_eq]
    exact sentimentOfTokens_perm h
  exact ⟨key, key "GREAT!" "great" (by decide)⟩

/-- Witness for amended C3 at two concrete texts whose token multisets
agree up to order. -/
theorem sentiment_token_invariance_witness :
    analyze_sentiment "Good day, great!" = analyze_sentiment "GREAT good day" :=
  sentiment_token_invariance.1 "Good day, great!" "GREAT good day" (by decide)

/-! ## Claims about persona execution and aggregation (C7, C8) -/

/-- Claim C7: every result produced by `execute_persona` satisfies:
exactly one of `response` and `error` is non-null (response set, error
null on success; response null, error a kind+message string on any
failure), and `sentiment` is always a defined float (the field's type),
equal to `0.0` whenever `response` is null. -/
theorem exec_result_invariant (p : Persona) (call : Except PyExn ApiResponse)
    (model : String) (elapsed : ℚ) :
    (((execute_persona p call model elapsed).response.isSome
        ∧ (execute_persona p call model elapsed).error = none) ∨
      ((execute_persona p call model elapsed).response = none
        ∧ ∃ e : PyExn,
            (execute_persona p call model elapsed).error = some (e.name ++ ": " ++ e.msg))) ∧
      ((execute_persona p call model elapsed).response = none →
        (execute_persona p call model elapsed).sentiment = 0) := by
  cases call with
  | error e =>
    exact ⟨Or.inr ⟨rfl, e, rfl⟩, fun _ => rfl⟩
  | ok resp =>
    cases h : resp.content.head? with
    | none =>
      constructor
      · right
        refine ⟨?_, { name := "IndexError", msg := "list index out of range" }, ?_⟩ <;>
          simp [execute_persona, h]
      · intro _
        simp [execute_persona, h]
    | some c =>
      constructor
      · left
        constructor <;> simp [execute_persona, h]
      · intro hn
        exfalso
        simp [execute_persona, h] at hn

/-- Witness for C7 at a concrete persona and a concrete transport
failure, discharging the response-null hypothesis. -/
theorem exec_result_invariant_witness :
    (execute_persona { id := "p1", name := "A", role := "CTO" }
        (Except.error { name := "TimeoutError", msg := "timed out" }) "m" 1).sentiment = 0 :=
  (exec_result_invariant { id := "p1", name := "A", role := "CTO" }
      (Except.error { name := "TimeoutError", msg := "timed out" }) "m" 1).2 rfl

/-- Counterexample to C8 as stated: the aggregation phase also stamps
the wall-clock `elapsed_seconds` into the metrics object, so two runs
over the identical (empty) result list at different wall-clock times
produce different metrics objects. -/
theorem aggregate_not_pure_cex :
    aggregateMetrics 0 [] 0 ≠ aggregateMetrics 0 [] 1 := by decide

/-- Claim C8, amended: every metrics field except `elapsed_seconds` is
a pure function of the completed result list (with `total_personas`
determined through the result-list length, one result per persona);
`elapsed_seconds` is the recorded wall-clock duration of the run, not a
function of the results.  Two aggregation runs over the identical
result list agree on all other fields. -/
theorem aggregate_pure_sans_elapsed (results : List ExecResult) (e1 e2 : ℚ) :
    stripElapsed (aggregateMetrics results.length results e1)
      = stripElapsed (aggregateMetrics results.length results e2) := rfl

/-! ## Claims about the price parser and insufficient data (C4, C6) -/

/-- Claim C4: `_parse_price_points` returns a quadruple only if all four
labels are present with parseable numeric values (each field of the
result comes from the successful search and parse of its pattern); a
text with only `BARGAIN: $80` yields no data; and
`calculate_van_westendorp` silently drops an error-free result whose
response yields no price data. -/
theorem parse_requires_all_labels :
    (∀ (t : String) (q : PriceQuad), _parse_price_points (some t) = some q →
      ((searchPrice tooExpensiveMatchAt t.data).bind pyFloat = some q.too_expensive ∧
        (searchPrice expensiveMatchAt t.data).bind pyFloat = some q.expensive ∧
        (searchPrice bargainMatchAt t.data).bind pyFloat = some q.bargain ∧
        (searchPrice tooCheapMatchAt t.data).bind pyFloat = some q.too_cheap)) ∧
      _parse_price_points (some "BARGAIN: $80") = none ∧
      (∀ (r : ResultEntry) (rs : List ResultEntry), r.error = none →
        _parse_price_points (responseTextOf r) = none →
        calculate_van_westendorp (r :: rs) = calculate_van_westendorp rs) := by
  refine ⟨?_, by decide, ?_⟩
  · intro t q h
    simp only [_parse_price_points] at h
    split at h
    · exact absurd h (by simp)
    · cases hte : (searchPrice tooExpensiveMatchAt t.data).bind pyFloat with
      | none => rw [hte] at h; exact absurd h (by simp)
      | some te =>
        rw [hte] at h
        cases hex : (searchPrice expensiveMatchAt t.data).bind pyFloat with
        | none => rw [hex] at h; exact absurd h (by simp)
        | some ex =>
          rw [hex] at h
          cases hba : (searchPrice bargainMatchAt t.data).bind pyFloat with
          | none => rw [hba] at h; exact absurd h (by simp)
          | some ba =>
            rw [hba] at h
            cases htc : (searchPrice tooCheapMatchAt t.data).bind pyFloat with
            | none => rw [htc] at h; exact absurd h (by simp)
            | some tc =>
              rw [htc] at h
              simp only [Option.some_inj] at h
              subst h
              exact ⟨rfl, rfl, rfl, rfl⟩
  · intro r rs h1 h2
    have hp : parsedOf r = none := by
      unfold parsedOf
      rw [h1]
      simpa using h2
    unfold calculate_van_westendorp validPrices groupByArch
    rw [List.filterMap_cons_none hp, List.foldl_cons]
    rw [show (match parsedOf r with
        | none => ([] : List (String × List PriceQuad))
        | some q => addToGroup [] (r.archetype_name.getD "unknown") q) = [] from by rw [hp]]

/-- Witness for C4: the full-success case at a concrete four-label
text, and the drop case at a concrete error-free no-data result. -/
theorem parse_requires_all_labels_witness :
    ((searchPrice tooExpensiveMatchAt "TOO_EXPENSIVE: $150 EXPENSIVE: $120 BARGAIN: $80 TOO CHEAP: $50".data).bind pyFloat
        = some (150 : ℚ) ∧
      (searchPrice expensiveMatchAt "TOO_EXPENSIVE: $150 EXPENSIVE: $120 BARGAIN: $80 TOO CHEAP: $50".data).bind pyFloat
        = some (120 : ℚ) ∧
      (searchPrice bargainMatchAt "TOO_EXPENSIVE: $150 EXPENSIVE: $120 BARGAIN: $80 TOO CHEAP: $50".data).bind pyFloat
        = some (80 : ℚ) ∧
      (searchPrice tooCheapMatchAt "TOO_EXPENSIVE: $150 EXPENSIVE: $120 BARGAIN: $80 TOO CHEAP: $50".data).bind pyFloat
        = some (50 : ℚ)) ∧
      calculate_van_westendorp [{ response := some (some "BARGAIN: $80") }]
        = calculate_van_westendorp [] :=
  ⟨parse_requires_all_labels.1 "TOO_EXPENSIVE: $150 EXPENSIVE: $120 BARGAIN: $80 TOO CHEAP: $50"
      { too_expensive := 150, expensive := 120, bargain := 80, too_cheap := 50 } (by decide),
    parse_requires_all_labels.2.2 { response := some (some "BARGAIN: $80") } [] rfl (by decide)⟩

/-- Claim C6: with fewer than 2 valid parsed quadruples (the empty
input and all-failed or unparseable inputs included),
`calculate_van_westendorp` returns the None-filled shape — all four
intersection points null, null price range, empty cumulative table,
empty per-archetype map — and raises no error (`Except.ok`). -/
theorem vw_insufficient_data (results : List ResultEntry)
    (h : (validPrices results).length < 2) :
    calculate_van_westendorp results = Except.ok _empty_result := by
  unfold calculate_van_westendorp
  rw [if_pos h]

/-- Witness for C6 at the empty result list. -/
theorem vw_insufficient_data_witness :
    calculate_van_westendorp [] = Except.ok _empty_result :=
  vw_insufficient_data [] (by decide)

/-! ## The two-respondent example (C1) -/

/-- Claim C1: for the input list of exactly two price quadruples
`(too_cheap, bargain, expensive, too_expensive) = (40, 60, 90, 120)`
and `(50, 70, 100, 130)`, the intersection engine returns non-null
values for all four of OPP, IPP, PMC and PME (concretely 60, 80, 60,
90), with `PMC ≤ PME` and `range.low ≤ range.high`. -/
theorem vw_two_respondents :
    ∃ pmcv pmev lov hiv : ℚ,
      (_calculate_intersections
          [{ too_expensive := 120, expensive := 90, bargain := 60, too_cheap := 40 },
            { too_expensive := 130, expensive := 100, bargain := 70, too_cheap := 50 }]).map
          (fun v => v.optimal_price_point.isSome) = Except.ok true ∧
      (_calculate_intersections
          [{ too_expensive := 120, expensive := 90, bargain := 60, too_cheap := 40 },
            { too_expensive := 130, expensive := 100, bargain := 70, too_cheap := 50 }]).map
          (fun v => v.indifference_price_point.isSome) = Except.ok true ∧
      (_calculate_intersections
          [{ too_expensive := 120, expensive := 90, bargain := 60, too_cheap := 40 },
            { too_expensive := 130, expensive := 100, bargain := 70, too_cheap := 50 }]).map
          (fun v => v.point_of_marginal_cheapness) = Except.ok (some pmcv) ∧
      (_calculate_intersections
          [{ too_expensive := 120, expensive := 90, bargain := 60, too_cheap := 40 },
            { too_expensive := 130, expensive := 100, bargain := 70, too_cheap := 50 }]).map
          (fun v => v.point_of_marginal_expensiveness) = Except.ok (some pmev) ∧
      (_calculate_intersections
          [{ too_expensive := 120, expensive := 90, bargain := 60, too_cheap := 40 },
            { too_expensive := 130, expensive := 100, bargain := 70, too_cheap := 50 }]).map
          (fun v => v.range_low) = Except.ok (some lov) ∧
      (_calculate_intersections
          [{ too_expensive := 120, expensive := 90, bargain := 60, too_cheap := 40 },
            { too_expensive := 130, expensive := 100, bargain := 70, too_cheap := 50 }]).map
          (fun v => v.range_high) = Except.ok (some hiv) ∧
      pmcv ≤ pmev ∧ lov ≤ hiv :=
  ⟨60, 90, 60, 90, by decide, by decide, by decide, by decide, by decide, by decide,
    by decide, by decide⟩

/-! ## The EXPENSIVE lookbehind (C5) -/

/-- A successful `searchFrom` decomposes the text at the match start:
there is a split of the text into a reversed prefix of length `i` and a
suffix on which the matcher succeeds. -/
theorem searchFrom_found {m : List Char → List Char → Option (List Char)}
    {pre l : List Char} {i : ℕ} {cap : List Char}
    (h : searchFrom m pre l = some (i, cap)) :
    ∃ pre2 l2, pre2.reverse ++ l2 = pre.reverse ++ l ∧ pre2.length = i ∧ m pre2 l2 = some cap := by
  induction l generalizing pre with
  | nil =>
    unfold searchFrom at h
    cases hm : m pre [] with
    | none => rw [hm] at h; exact absurd h (by simp)
    | some v =>
      rw [hm] at h
      simp at h
      exact ⟨pre, [], rfl, h.1, by rw [hm, h.2]⟩
  | cons c rest ih =>
    unfold searchFrom at h
    cases hm : m pre (c :: rest) with
    | some v =>
      rw [hm] at h
      simp at h
      exact ⟨pre, c :: rest, rfl, h.1, by rw [hm, h.2]⟩
    | none =>
      rw [hm] at h
      obtain ⟨pre2, l2, heq, hlen, hm2⟩ := ih h
      refine ⟨pre2, l2, ?_, hlen, hm2⟩
      rw [heq]
      simp

/-- Counterexample to C5 as stated: in `"TOO  EXPENSIVE: 100"` (two
spaces between `TOO` and `EXPENSIVE`) the `expensive` pattern matches at
position 5, capturing the `100` that follows the too-expensive label:
the fixed-width lookbehind `(?<!TOO[_\s])` inspects only the four
preceding characters (`OO  `), which do not form `TOO[_\s]`, so the
match is the tail of a "too expensive" label written with unusual
whitespace. -/
theorem expensive_lookbehind_cex :
    searchFrom expensiveMatchAt [] "TOO  EXPENSIVE: 100".data
        = some (5, [ '1', '0', '0']) ∧
      isTooExpTail "TOO  EXPENSIVE: 100".data 5 := by
  constructor
  · decide
  · decide

/-- Claim C5, amended: the value bound to the `expensive` field never
comes from a number that follows the exact single-separator form of the
label — the match of the `expensive` pattern is never immediately
preceded by `TOO` plus one `_`-or-whitespace character (in any case
variant), which is precisely what the fixed-width negative lookbehind
blocks; with two or more separator characters between `TOO` and
`EXPENSIVE` the match can still be the tail of a too-expensive label
(see the counterexample). -/
theorem expensive_lookbehind_single_sep (text : List Char) (i : ℕ) (cap : List Char)
    (h : searchFrom expensiveMatchAt [] text = some (i, cap)) :
    ¬ singleSepTooExpAt text i := by
  obtain ⟨pre2, l2, heq, hlen, hm⟩ := searchFrom_found h
  simp only [List.reverse_nil, List.nil_append] at heq
  have hblock : lookbehindBlocks pre2 = false := by
    unfold expensiveMatchAt at hm
    by_contra hb
    rw [Bool.not_eq_false] at hb
    rw [if_pos hb] at hm
    exact absurd hm (by simp)
  intro hss
  obtain ⟨h4, ⟨ct, hct, hctl⟩, ⟨co2, hco2, hco2l⟩, ⟨co1, hco1, hco1l⟩, ⟨cs, hcs, hcsl⟩⟩ := hss
  have hp4 : 4 ≤ pre2.length := hlen ▸ h4
  have hget : ∀ j, j < pre2.length → text.get? (i - 1 - j) = pre2.get? j := by
    intro j hj
    rw [← heq]
    have hjr : i - 1 - j < pre2.reverse.length := by
      rw [List.length_reverse]
      omega
    rw [List.get?_eq_getElem?, List.getElem?_append_left hjr]
    rw [List.getElem?_reverse (by rw [List.length_reverse] at hjr; omega)]
    rw [← List.get?_eq_getElem?]
    congr 1
    omega
  have h0 := hget 0 (by omega)
  have h1 := hget 1 (by omega)
  have h2 := hget 2 (by omega)
  have h3 := hget 3 (by omega)
  obtain ⟨s, o2, o1, t, rest2, rfl⟩ :
      ∃ s o2 o1 t rest2, pre2 = s :: o2 :: o1 :: t :: rest2 := by
    rcases pre2 with _ | ⟨s, _ | ⟨o2, _ | ⟨o1, _ | ⟨t, r⟩⟩⟩⟩ <;>
      first
        | exact ⟨_, _, _, _, _, rfl⟩
        | (exfalso; simp at hp4)
  rw [show i - 1 - 0 = i - 1 from by omega] at h0
  rw [show i - 1 - 1 = i - 2 from by omega] at h1
  rw [show i - 1 - 2 = i - 3 from by omega] at h2
  rw [show i - 1 - 3 = i - 4 from by omega] at h3
  rw [show (s :: o2 :: o1 :: t :: rest2).get? 0 = some s from rfl] at h0
  rw [show (s :: o2 :: o1 :: t :: rest2).get? 1 = some o2 from rfl] at h1
  rw [show (s :: o2 :: o1 :: t :: rest2).get? 2 = some o1 from rfl] at h2
  rw [show (s :: o2 :: o1 :: t :: rest2).get? 3 = some t from rfl] at h3
  have e1 : cs = s := Option.some_inj.mp (hcs.symm.trans h0)
  have e2 : co1 = o2 := Option.some_inj.mp (hco1.symm.trans h1)
  have e3 : co2 = o1 := Option.some_inj.mp (hco2.symm.trans h2)
  have e4 : ct = t := Option.some_inj.mp (hct.symm.trans h3)
  subst e1 e2 e3 e4
  simp only [lookbehindBlocks] at hblock
  rw [hcsl, hco1l, hco2l, hctl] at hblock
  simp at hblock

/-- Witness for amended C5: at `"EXPENSIVE: 5"` the match starts at
position 0, which is not preceded by a single-separator `TOO`. -/
theorem expensive_lookbehind_single_sep_witness :
    ¬ singleSepTooExpAt "EXPENSIVE: 5".data 0 :=
  expensive_lookbehind_single_sep "EXPENSIVE: 5".data 0 [ '5'] (by decide)

/-! ## Totality of the price analysis (C10) -/

theorem pricePoints_ne_nil {d : List PriceQuad} (hd : d ≠ []) : pricePoints d ≠ [] := by
  cases d with
  | nil => exact absurd rfl hd
  | cons q rest =>
    intro hnil
    have hmem : q.too_expensive ∈ pricePoints (q :: rest) := by
      unfold pricePoints
      rw [(List.perm_insertionSort (· ≤ ·) (allValues (q :: rest)).dedup).mem_iff,
        List.mem_dedup]
      unfold allValues
      simp
    rw [hnil] at hmem
    exact absurd hmem (List.not_mem_nil _)

theorem calcinter_ok {d : List PriceQuad} (hd : d ≠ []) :
    ∃ v, _calculate_intersections d = Except.ok v := by
  simp only [_calculate_intersections]
  obtain ⟨lo, hlo⟩ : ∃ lo, (pricePoints d).head? = some lo := by
    cases hpp : pricePoints d with
    | nil => exact absurd hpp (pricePoints_ne_nil hd)
    | cons a l => exact ⟨a, rfl⟩
  obtain ⟨hi, hhi⟩ : ∃ hi, (pricePoints d).getLast? = some hi := by
    have hs := List.getLast?_isSome.mpr (pricePoints_ne_nil hd)
    cases hgl : (pricePoints d).getLast? with
    | none => rw [hgl] at hs; exact absurd hs (by simp)
    | some a => exact ⟨a, rfl⟩
  cases hpmc : _find_intersection CumPoint.too_cheap CumPoint.expensive (cumulativeOf d) with
  | some v1 =>
    cases hpme : _find_intersection CumPoint.too_expensive CumPoint.bargain (cumulativeOf d) with
    | some v2 => exact ⟨_, rfl⟩
    | none => exact ⟨_, by rw [hhi]⟩
  | none =>
    cases hpme : _find_intersection CumPoint.too_expensive CumPoint.bargain (cumulativeOf d) with
    | some v2 => exact ⟨_, by rw [hlo]⟩
    | none => exact ⟨_, by rw [hlo, hhi]⟩

theorem archResults_ok (gs : List (String × List PriceQuad)) :
    ∃ l, archResults gs = Except.ok l := by
  induction gs with
  | nil => exact ⟨[], rfl⟩
  | cons g rest ih =>
    obtain ⟨a, ps⟩ := g
    obtain ⟨l, hl⟩ := ih
    unfold archResults
    split
    · rename_i hlen
      obtain ⟨v, hv⟩ := calcinter_ok (d := ps) (by
        rintro rfl
        simp at hlen)
      rw [hv, hl]
      exact ⟨_, rfl⟩
    · exact ⟨l, hl⟩

/-- Claim C10: `calculate_van_westendorp` is total on its public
interface: for every list of result dicts — entries may lack the
`response`, `error` or `archetype_name` keys, or carry a null response
(the `ResultEntry` fields model exactly those shapes) — it returns the
full result record (every key of the output dict is a field of
`VWResult`) and never raises: the division by the respondent count and
the `price_points[0]` / `price_points[-1]` accesses sit behind the
`≥ 2` check, so the result is always `Except.ok`. -/
theorem vw_total (results : List ResultEntry) :
    ∃ v, calculate_van_westendorp results = Except.ok v := by
  simp only [calculate_van_westendorp]
  split
  · exact ⟨_empty_result, rfl⟩
  · rename_i hge
    obtain ⟨v, hv⟩ := calcinter_ok (d := validPrices results) (by
      intro hnil
      rw [hnil] at hge
      simp at hge)
    obtain ⟨l, hl⟩ := archResults_ok (groupByArch results)
    rw [hv, hl]
    exact ⟨_, rfl⟩

/-! ## Monotonicity of the cumulative table (C9) -/

theorem mkCumRaw_mono (data : List PriceQuad) (hn : 0 < (data.length : ℚ))
    {p q : ℚ} (hpq : p ≤ q) : cumMonoPair (mkCumRaw data p) (mkCumRaw data q) := by
  unfold cumMonoPair
  simp only [mkCumRaw]
  refine ⟨?_, ?_, ?_, ?_⟩ <;> apply (div_le_div_iff_of_pos_right hn).mpr <;>
    refine Nat.cast_le.mpr (List.countP_mono_left ?_) <;>
    intro x _ hx
  · exact decide_eq_true (le_trans hpq (of_decide_eq_true hx))
  · exact decide_eq_true (le_trans hpq (of_decide_eq_true hx))
  · exact decide_eq_true (le_trans (of_decide_eq_true hx) hpq)
  · exact decide_eq_true (le_trans (of_decide_eq_true hx) hpq)

theorem mkCumRaw_unit (data : List PriceQuad) (hn : 0 < (data.length : ℚ)) (p : ℚ) :
    cumInUnit (mkCumRaw data p) := by
  unfold cumInUnit
  simp only [mkCumRaw]
  refine ⟨⟨?_, ?_⟩, ⟨?_, ?_⟩, ⟨?_, ?_⟩, ⟨?_, ?_⟩⟩ <;>
    first
      | exact div_nonneg (by positivity) (le_of_lt hn)
      | exact (div_le_one hn).mpr (Nat.cast_le.mpr (List.countP_le_length _))

theorem roundCum_mono {c d : CumPoint} (h : cumMonoPair c d) :
    cumMonoPair (roundCum c) (roundCum d) :=
  ⟨pyRound_mono 4 h.1, pyRound_mono 4 h.2.1, pyRound_mono 4 h.2.2.1, pyRound_mono 4 h.2.2.2⟩

theorem roundCum_unit {c : CumPoint} (h : cumInUnit c) : cumInUnit (roundCum c) :=
  ⟨⟨pyRound_nonneg 4 h.1.1, pyRound_le_one 4 h.1.2⟩,
    ⟨pyRound_nonneg 4 h.2.1.1, pyRound_le_one 4 h.2.1.2⟩,
    ⟨pyRound_nonneg 4 h.2.2.1.1, pyRound_le_one 4 h.2.2.1.2⟩,
    ⟨pyRound_nonneg 4 h.2.2.2.1, pyRound_le_one 4 h.2.2.2.2⟩⟩

theorem pricePoints_sorted (data : List PriceQuad) :
    (pricePoints data).Sorted (· ≤ ·) :=
  List.sorted_insertionSort _ _

theorem pricePoints_get_mono (data : List PriceQuad) (i j : ℕ) (hij : i ≤ j)
    (hj : j < (pricePoints data).length) :
    (pricePoints data).get ⟨i, lt_of_le_of_lt hij hj⟩ ≤ (pricePoints data).get ⟨j, hj⟩ := by
  rcases lt_or_eq_of_le hij with hlt | heq
  · exact List.pairwise_iff_get.mp (pricePoints_sorted data) ⟨i, lt_of_le_of_lt hij hj⟩ ⟨j, hj⟩ hlt
  · subst heq
    exact le_refl _

theorem cumulativeRaw_get (data : List PriceQuad) (k : ℕ)
    (hk : k < (cumulativeRaw data).length) :
    (cumulativeRaw data).get ⟨k, hk⟩
      = mkCumRaw data ((pricePoints data).get
          ⟨k, by simpa [cumulativeRaw] using hk⟩) := by
  simp [cumulativeRaw]

theorem cumulativeOf_get (data : List PriceQuad) (k : ℕ)
    (hk : k < (cumulativeOf data).length) :
    (cumulativeOf data).get ⟨k, hk⟩
      = roundCum (mkCumRaw data ((pricePoints data).get
          ⟨k, by simpa [cumulativeOf, cumulativeRaw] using hk⟩)) := by
  simp [cumulativeOf, cumulativeRaw]

/-- Claim C9: for at least 2 price quadruples, the cumulative table
built by `_calculate_intersections` is monotone along the ascending
price axis — the `too_cheap` and `bargain` fractions are non-increasing
in the price, the `expensive` and `too_expensive` fractions
non-decreasing — and every fraction lies in `[0, 1]`; both after the
4-decimal rounding (`cumulativeOf`, the table the source builds) and
before it (`cumulativeRaw`). -/
theorem vw_cumulative_monotone (data : List PriceQuad) (h2 : 2 ≤ data.length)
    (i j : ℕ) (hij : i ≤ j)
    (hjr : j < (cumulativeRaw data).length) (hjo : j < (cumulativeOf data).length) :
    cumMonoPair ((cumulativeOf data).get ⟨i, lt_of_le_of_lt hij hjo⟩)
        ((cumulativeOf data).get ⟨j, hjo⟩) ∧
      cumMonoPair ((cumulativeRaw data).get ⟨i, lt_of_le_of_lt hij hjr⟩)
        ((cumulativeRaw data).get ⟨j, hjr⟩) ∧
      cumInUnit ((cumulativeOf data).get ⟨j, hjo⟩) ∧
      cumInUnit ((cumulativeRaw data).get ⟨j, hjr⟩) := by
  have hn : 0 < (data.length : ℚ) := by
    have h0 : 0 < data.length := lt_of_lt_of_le (by norm_num) h2
    exact_mod_cast h0
  rw [cumulativeOf_get, cumulativeOf_get, cumulativeRaw_get, cumulativeRaw_get]
  have hpp := pricePoints_get_mono data i j hij
    (by simpa [cumulativeRaw] using hjr)
  exact ⟨roundCum_mono (mkCumRaw_mono data hn hpp),
    mkCumRaw_mono data hn hpp,
    roundCum_unit (mkCumRaw_unit data hn _),
    mkCumRaw_unit data hn _⟩

/-- Witness for C9 at a concrete pair of quadruples and the first two
rows of its cumulative table. -/
theorem vw_cumulative_monotone_witness :
    cumMonoPair ((cumulativeOf [⟨121, 91, 61, 41⟩, ⟨131, 101, 71, 51⟩]).get
          ⟨0, by decide⟩)
        ((cumulativeOf [⟨121, 91, 61, 41⟩, ⟨131, 101, 71, 51⟩]).get ⟨1, by decide⟩) ∧
      cumMonoPair ((cumulativeRaw [⟨121, 91, 61, 41⟩, ⟨131, 101, 71, 51⟩]).get
          ⟨0, by decide⟩)
        ((cumulativeRaw [⟨121, 91, 61, 41⟩, ⟨131, 101, 71, 51⟩]).get ⟨1, by decide⟩) ∧
      cumInUnit ((cumulativeOf [⟨121, 91, 61, 41⟩, ⟨131, 101, 71, 51⟩]).get ⟨1, by decide⟩) ∧
      cumInUnit ((cumulativeRaw [⟨121, 91, 61, 41⟩, ⟨131, 101, 71, 51⟩]).get ⟨1, by decide⟩) :=
  vw_cumulative_monotone [⟨121, 91, 61, 41⟩, ⟨131, 101, 71, 51⟩] (by decide) 0 1
    (by decide) (by decide) (by decide)
